import Mathlib

/-!
Verification development for a role-based CRM backend (Node/Express + Mongoose).

The controllers are shallowly embedded as pure functions over an explicit
database state `DB`.  MongoDB document ids are modelled as naturals (`OID`),
nullable references as `Option OID`, and request handling as functions
`DB → caller → request → DB × HRes α` where `HRes` distinguishes a successful
JSON response, an `AppError` (status code + message), and an uncaught
exception (surfaced as HTTP 500 by the global error handler).

Modelling conventions, matching the source:
* `User.find`-family queries run through the mongoose pre-find hook that
  filters out documents with `active = false`; `updateMany`/`deleteOne` do not.
* `updateMany` applies its `$set` to every document matching the filter and
  its `modifiedCount` counts only documents actually changed by the `$set`
  (MongoDB semantics: setting a field to its current value does not count).
* `findByIdAndUpdate` updates the documents whose `_id` matches (ids are
  unique in MongoDB; the model maps over all matches).
* JavaScript truthiness on strings (`!s`) is modelled by comparison with `""`;
  absent optional ids/dates are `Option.none`.
* Dereferencing a `null` reference (`u.manager.toString()` when `manager` is
  null) throws a TypeError in JavaScript; the model returns `HRes.thrown`.
* Query-string parameters that are pure record filters orthogonal to
  ownership scoping (date/month/clientName windows) are omitted; the
  ownership-relevant parameters (memberId, executiveId, teamLeadId) are kept.
-/

namespace CRM

/-- Object id (MongoDB ObjectId, modelled as an opaque natural). -/
abbrev OID := Nat

/-- The closed role set of config/roles.js. -/
inductive Role where
  | sales_executive
  | team_lead
  | manager
deriving DecidableEq, Repr

/-- models/User.js (fields relevant to the controllers under study). -/
structure UserDoc where
  uid : OID
  name : String
  email : String
  contactNo : String
  location : String
  refId : String
  status : String
  role : Role
  manager : Option OID
  team : Option OID
  bankName : String
  accountNo : String
  ifscCode : String
  upiId : String
  active : Bool
deriving DecidableEq, Repr

/-- models/Prospect.js. `teamLead` is kept optional: the schema requires it
but `updateMany` in the transfer engine can write `null` into it. -/
structure ProspectDoc where
  pid : OID
  companyName : String
  clientName : String
  emailId : String
  contactNo : String
  comment : String
  reminderDate : Option Nat
  activity : String
  salesExecutive : OID
  teamLead : Option OID
  isUntouched : Bool
  lastUpdate : Nat
  createdAt : Nat
deriving DecidableEq, Repr

/-- models/Sales.js. -/
structure SaleDoc where
  sid : OID
  companyName : String
  clientName : String
  amount : Nat
  salesExecutive : OID
  teamLead : Option OID
  prospect : Option OID
  isTransferredToFinance : Bool
  transferredToFinanceDate : Option Nat
  saleDate : Nat
deriving DecidableEq, Repr

/-- models/CallLog.js. -/
structure CallLogDoc where
  cid : OID
  companyName : String
  clientName : String
  emailId : String
  contactNo : String
  activity : String
  comment : String
  salesExecutive : OID
  prospect : Option OID
  callDate : Nat
deriving DecidableEq, Repr

/-- models/Team.js. -/
structure TeamDoc where
  tid : OID
  name : String
  teamLead : OID
deriving DecidableEq, Repr

/-- models/TransferLog.js. -/
structure TransferLogDoc where
  transferType : String
  transferredBy : OID
  transferredFrom : Option OID
  transferredTo : Option OID
  dataCount : Nat
  dataIds : List OID
  amount : Nat
  companyName : String
  clientName : String
  transferDate : Nat
deriving DecidableEq, Repr

/-- The persistent store. -/
structure DB where
  users : List UserDoc
  teams : List TeamDoc
  prospects : List ProspectDoc
  sales : List SaleDoc
  callLogs : List CallLogDoc
  transferLogs : List TransferLogDoc
deriving DecidableEq, Repr

/-- Outcome of one request: success (HTTP status + payload), an AppError
(status + message), or an uncaught exception (global handler turns it
into a 500). -/
inductive HRes (α : Type) where
  | ok (status : Nat) (val : α)
  | err (status : Nat) (msg : String)
  | thrown
deriving DecidableEq, Repr

/-- JavaScript truthiness of a string field (`!s` fails for `""`/missing). -/
def strTruthy (s : String) : Bool := s != ""

/-- Truthiness of an optional string field. -/
def optStrTruthy : Option String → Bool
  | none => false
  | some s => s != ""

/-- `User.findById` (runs through the pre-find hook filtering inactive users). -/
def DB.findUser (db : DB) (uid : OID) : Option UserDoc :=
  db.users.find? (fun u => u.active && u.uid == uid)

/-- middleware/auth.js `restrictTo(...roles)`. -/
def restrictTo (roles : List Role) (caller : UserDoc) : Bool :=
  roles.contains caller.role

/-- The 403 message produced by `restrictTo`. -/
def restrictMsg : String := "You do not have permission to perform this action"

/-- `User.find({ manager: tl, role: sales_executive }).select(_id)` used to
compute a team lead scope in the list controllers (pre-find hook applies). -/
def teamMemberIds (db : DB) (tl : OID) : List OID :=
  (db.users.filter
    (fun u => u.active && u.manager == some tl && u.role == Role.sales_executive)).map
    (fun u => u.uid)

/-- The `filter.salesExecutive` value built up by the list controllers. -/
inductive SEFilter where
  | any
  | eqId (i : OID)
  | inList (l : List OID)
deriving DecidableEq, Repr

/-- Whether an owner id passes the `salesExecutive` filter. -/
def SEFilter.allows : SEFilter → OID → Bool
  | .any, _ => true
  | .eqId i, j => i == j
  | .inList l, j => l.contains j

/-- Ownership-relevant query parameters of GET /prospects. -/
structure ProspectQuery where
  memberId : Option OID
deriving DecidableEq, Repr

/-- controllers/prospectController.js `getAllProspects` (read-only). -/
def getAllProspects (db : DB) (caller : UserDoc) (q : ProspectQuery) :
    HRes (List ProspectDoc) :=
  let roleScope : SEFilter :=
    if caller.role == Role.sales_executive then .eqId caller.uid
    else if caller.role == Role.team_lead then .inList (teamMemberIds db caller.uid)
    else .any
  match q.memberId with
  | some mid =>
      if caller.role == Role.team_lead then
        if db.users.any (fun u => u.active && u.uid == mid &&
            u.manager == some caller.uid && u.role == Role.sales_executive) then
          .ok 200 (db.prospects.filter (fun p => SEFilter.allows (.eqId mid) p.salesExecutive))
        else
          .err 403 "You do not have permission to view prospects for this team member."
      else if caller.role == Role.sales_executive then
        .err 403 "Sales Executives cannot filter prospects by other member IDs."
      else
        .ok 200 (db.prospects.filter (fun p => SEFilter.allows (.eqId mid) p.salesExecutive))
  | none =>
      .ok 200 (db.prospects.filter (fun p => roleScope.allows p.salesExecutive))

/-- Ownership-relevant query parameters of GET /sales. -/
structure SalesQuery where
  teamLeadId : Option OID
  executiveId : Option OID
deriving DecidableEq, Repr

/-- controllers/salesController.js `getAllSales` (read-only). The filter is
built in source order: role scope, then `teamLeadId` (manager only), then
`executiveId` (overwrites the salesExecutive filter). -/
def getAllSales (db : DB) (caller : UserDoc) (q : SalesQuery) :
    HRes (List SaleDoc) :=
  let roleScope : SEFilter :=
    if caller.role == Role.sales_executive then .eqId caller.uid
    else if caller.role == Role.team_lead then .inList (teamMemberIds db caller.uid)
    else .any
  let tlCheck : Option (Option OID) :=
    match q.teamLeadId with
    | none => some none
    | some t => if caller.role == Role.manager then some (some t) else none
  match tlCheck with
  | none => .err 403 "Only Managers can filter sales by Team Lead."
  | some tlFilter =>
    match q.executiveId with
    | some eid =>
        if caller.role == Role.team_lead &&
           !(db.users.any (fun u => u.active && u.uid == eid &&
              u.manager == some caller.uid && u.role == Role.sales_executive)) then
          .err 403 "You can only filter by executives in your team."
        else
          .ok 200 (db.sales.filter (fun s =>
            SEFilter.allows (.eqId eid) s.salesExecutive &&
            (match tlFilter with | none => true | some t => s.teamLead == some t)))
    | none =>
        .ok 200 (db.sales.filter (fun s =>
          roleScope.allows s.salesExecutive &&
          (match tlFilter with | none => true | some t => s.teamLead == some t)))

/-- Request body of POST /prospects (string fields use `""` for absent). -/
structure ProspectBody where
  companyName : String
  clientName : String
  emailId : String
  contactNo : String
  comment : String
  reminderDate : Option Nat
  assignedToExecutiveEmail : String
  prospectId : Option OID
deriving DecidableEq, Repr

/-- Shared tail of `createProspect`: build the new document, append it and,
when `prospectId` was supplied, mark that prospect Converted. -/
def createProspectFinish (db : DB) (b : ProspectBody) (se : OID) (tl : OID)
    (newId now : Nat) : DB × HRes ProspectDoc :=
  let p : ProspectDoc :=
    { pid := newId, companyName := b.companyName, clientName := b.clientName
      emailId := b.emailId, contactNo := b.contactNo, comment := b.comment
      reminderDate := b.reminderDate, activity := "New", salesExecutive := se
      teamLead := some tl, isUntouched := true, lastUpdate := now, createdAt := now }
  let db1 : DB := { db with prospects := db.prospects ++ [p] }
  let db2 : DB :=
    match b.prospectId with
    | some opid =>
        { db1 with prospects := db1.prospects.map (fun q =>
            if q.pid == opid then
              { q with activity := "Converted", isUntouched := false, lastUpdate := now }
            else q) }
    | none => db1
  (db2, .ok 201 p)

/-- controllers/prospectController.js `createProspect`. In the manager branch,
when the assigned executive has no team lead, the source logs with an
undeclared identifier (`assignedExecutiveId`), which raises a ReferenceError
before the 400 is produced: modelled as `thrown`. -/
def createProspect (db : DB) (caller : UserDoc) (b : ProspectBody)
    (newId now : Nat) : DB × HRes ProspectDoc :=
  if !(strTruthy b.companyName) || !(strTruthy b.clientName) then
    (db, .err 400 "Please provide company name and client name.")
  else
    match caller.role with
    | Role.sales_executive =>
        match db.findUser caller.uid with
        | none => (db, .err 500 "Executive not linked to a Team Lead. Cannot create prospect.")
        | some ex =>
          match ex.manager with
          | none => (db, .err 500 "Executive not linked to a Team Lead. Cannot create prospect.")
          | some tl => createProspectFinish db b caller.uid tl newId now
    | Role.team_lead =>
        if strTruthy b.assignedToExecutiveEmail then
          match db.users.find? (fun u => u.active &&
              u.email == b.assignedToExecutiveEmail &&
              u.role == Role.sales_executive && u.manager == some caller.uid) with
          | none => (db, .err 400 "Assigned executive not found or not part of your team.")
          | some ae => createProspectFinish db b ae.uid caller.uid newId now
        else
          createProspectFinish db b caller.uid caller.uid newId now
    | Role.manager =>
        if !(strTruthy b.assignedToExecutiveEmail) then
          (db, .err 400 "Manager must assign prospect to a Sales Executive.")
        else
          match db.users.find? (fun u => u.active &&
              u.email == b.assignedToExecutiveEmail &&
              u.role == Role.sales_executive) with
          | none => (db, .err 400 "Assigned executive not found.")
          | some ae =>
            match db.findUser ae.uid with
            | none => (db, .thrown)
            | some ex =>
              match ex.manager with
              | none => (db, .thrown)
              | some tl => createProspectFinish db b ae.uid tl newId now

/-- routes/prospectRoutes.js POST /: `restrictTo(MANAGER, TEAM_LEAD)` runs
before the controller. -/
def postProspect (db : DB) (caller : UserDoc) (b : ProspectBody)
    (newId now : Nat) : DB × HRes ProspectDoc :=
  if restrictTo [Role.manager, Role.team_lead] caller then
    createProspect db caller b newId now
  else
    (db, .err 403 restrictMsg)

/-- Request body of POST /transfer/internal. The ids are always present in a
typed request; the `Array.isArray`/presence checks of the source reduce to
the emptiness and data-type checks. -/
structure TransferReq where
  sourceUserId : OID
  targetUserId : OID
  dataIds : List OID
  dataType : String
deriving DecidableEq, Repr

/-- Outcome of the validation + authorization prefix of
`transferInternalData` (steps 1 and 2 of the source). -/
inductive TAuth where
  | proceed (src tgt : UserDoc)
  | fail (status : Nat) (msg : String)
  | thrown
deriving DecidableEq, Repr

/-- Outcome of one guard inside the team-lead authorization block. -/
inductive TGate where
  | allow
  | deny (msg : String)
  | thrown
deriving DecidableEq, Repr

/-- Sequencing of guards with early return, as in the source. -/
def TGate.seq : TGate → TGate → TGate
  | .allow, g => g
  | .deny m, _ => .deny m
  | .thrown, _ => .thrown

/-- Line 234: `sourceUser._id !== caller && sourceUser.manager.toString()
!== caller` — the manager dereference runs only when the first conjunct
holds and throws when `manager` is null. -/
def tlGateSource (caller src : UserDoc) : TGate :=
  if src.uid != caller.uid then
    match src.manager with
    | none => .thrown
    | some m =>
        if m != caller.uid then
          .deny "You can only transfer data from your own account or your direct reports."
        else .allow
  else .allow

/-- Line 238: the same check for the target user. -/
def tlGateTarget (caller tgt : UserDoc) : TGate :=
  if tgt.uid != caller.uid then
    match tgt.manager with
    | none => .thrown
    | some m =>
        if m != caller.uid then
          .deny "You can only transfer data to yourself or your direct reports."
        else .allow
  else .allow

/-- Line 242: executive-to-executive transfers must stay inside the caller
team (`||` short-circuit: the target manager is dereferenced only when the
source manager already equals the caller). -/
def tlGatePair (caller src tgt : UserDoc) : TGate :=
  if src.role == Role.sales_executive && tgt.role == Role.sales_executive then
    match src.manager with
    | none => .thrown
    | some sm =>
        if sm != caller.uid then
          .deny "You can only transfer data between executives in your team."
        else
          match tgt.manager with
          | none => .thrown
          | some tm =>
              if tm != caller.uid then
                .deny "You can only transfer data between executives in your team."
              else .allow
  else .allow

/-- Line 247: a team-lead source may hand data only to a direct report. -/
def tlGateLeadToExec (caller src tgt : UserDoc) : TGate :=
  if src.role == Role.team_lead && tgt.role == Role.sales_executive then
    match tgt.manager with
    | none => .thrown
    | some tm =>
        if tm != caller.uid then
          .deny "You can only transfer data to your direct reports."
        else .allow
  else .allow

/-- The team-lead authorization block of `transferInternalData`
(controllers/authController.js lines 230-249): four early-return guards. -/
def tlTransferAuth (caller src tgt : UserDoc) : TGate :=
  (tlGateSource caller src).seq
    ((tlGateTarget caller tgt).seq
      ((tlGatePair caller src tgt).seq (tlGateLeadToExec caller src tgt)))

/-- Steps 1-2 of `transferInternalData`: payload validation, user lookup,
role check and per-role authorization. -/
def transferAuth (db : DB) (caller : UserDoc) (req : TransferReq) : TAuth :=
  if req.dataIds.isEmpty then
    .fail 400 "Missing required transfer data: sourceUserId, targetUserId, dataIds, dataType."
  else if !(req.dataType == "prospects" || req.dataType == "sales") then
    .fail 400 "Invalid data type. Must be prospects or sales."
  else
    match db.findUser req.sourceUserId, db.findUser req.targetUserId with
    | none, _ => .fail 404 "Source or target user not found."
    | _, none => .fail 404 "Source or target user not found."
    | some src, some tgt =>
      if !([Role.sales_executive, Role.team_lead].contains src.role &&
           [Role.sales_executive, Role.team_lead].contains tgt.role) then
        .fail 400 "Data can only be transferred between Sales Executives and Team Leads."
      else if caller.role == Role.team_lead then
        match tlTransferAuth caller src tgt with
        | .allow => .proceed src tgt
        | .deny m => .fail 403 m
        | .thrown => .thrown
      else if caller.role == Role.manager then
        .proceed src tgt
      else
        .fail 403 "You do not have permission to transfer data internally."

/-- The `updateMany` filter of step 3: id requested and currently owned by
the source user. -/
def transferMatchesP (req : TransferReq) (src : UserDoc) (p : ProspectDoc) : Bool :=
  req.dataIds.contains p.pid && p.salesExecutive == src.uid

/-- Same filter for sales. -/
def transferMatchesS (req : TransferReq) (src : UserDoc) (s : SaleDoc) : Bool :=
  req.dataIds.contains s.sid && s.salesExecutive == src.uid

/-- Effect of the `$set` of step 3 on one matching prospect. -/
def prosUpdateF (req : TransferReq) (src : UserDoc) (tgtId : OID)
    (newTL : Option OID) (p : ProspectDoc) : ProspectDoc :=
  if transferMatchesP req src p then
    { p with salesExecutive := tgtId, teamLead := newTL }
  else p

/-- Predicate counted by `modifiedCount` for prospects: the document matches
the filter and the `$set` changes a value. -/
def prosChangedP (req : TransferReq) (src : UserDoc) (tgtId : OID)
    (newTL : Option OID) (p : ProspectDoc) : Bool :=
  transferMatchesP req src p &&
    (p.salesExecutive != tgtId || p.teamLead != newTL)

/-- Effect of the `$set` of step 3 on one matching sale. -/
def saleUpdateF (req : TransferReq) (src : UserDoc) (tgtId : OID)
    (newTL : Option OID) (s : SaleDoc) : SaleDoc :=
  if transferMatchesS req src s then
    { s with salesExecutive := tgtId, teamLead := newTL }
  else s

/-- Predicate counted by `modifiedCount` for sales. -/
def saleChangedP (req : TransferReq) (src : UserDoc) (tgtId : OID)
    (newTL : Option OID) (s : SaleDoc) : Bool :=
  transferMatchesS req src s &&
    (s.salesExecutive != tgtId || s.teamLead != newTL)

/-- The recomputed denormalized `teamLead` pointer: the target itself when
the target is a team lead, otherwise the target's own team lead. -/
def transferNewTL (tgt : UserDoc) : Option OID :=
  if tgt.role == Role.team_lead then some tgt.uid else tgt.manager

/-- controllers/authController.js `transferInternalData` (steps 3-4 on top of
`transferAuth`). `modifiedCount` counts the matching documents whose `$set`
changes a value. The 404 message is raised when nothing was modified, before
the TransferLog is written. -/
def transferInternalData (db : DB) (caller : UserDoc) (req : TransferReq)
    (now : Nat) : DB × HRes Nat :=
  match transferAuth db caller req with
  | .fail c m => (db, .err c m)
  | .thrown => (db, .thrown)
  | .proceed src tgt =>
    let newTL : Option OID := transferNewTL tgt
    let mkLog : Nat → TransferLogDoc := fun cnt =>
      { transferType := "internal_data_transfer", transferredBy := caller.uid
        transferredFrom := some src.uid, transferredTo := some tgt.uid
        dataCount := cnt, dataIds := req.dataIds, amount := 0
        companyName := "", clientName := "", transferDate := now }
    if req.dataType == "prospects" then
      let updatedCount := db.prospects.countP (prosChangedP req src tgt.uid newTL)
      let db1 : DB :=
        { db with prospects := db.prospects.map (prosUpdateF req src tgt.uid newTL) }
      if updatedCount == 0 then
        (db1, .err 404 "No matching data found to transfer or data already transferred.")
      else
        ({ db1 with transferLogs := db1.transferLogs ++ [mkLog updatedCount] },
         .ok 200 updatedCount)
    else
      let updatedCount := db.sales.countP (saleChangedP req src tgt.uid newTL)
      let db1 : DB :=
        { db with sales := db.sales.map (saleUpdateF req src tgt.uid newTL) }
      if updatedCount == 0 then
        (db1, .err 404 "No matching data found to transfer or data already transferred.")
      else
        ({ db1 with transferLogs := db1.transferLogs ++ [mkLog updatedCount] },
         .ok 200 updatedCount)

/-- controllers/authController.js `transferToFinance`. The update flags only
not-yet-transferred sales among `salesIds`; the log amount, however, is
summed over the re-fetch of all sales whose id is in `salesIds` (the
re-fetch does not exclude the already-transferred ones). Returns
`(modifiedCount, totalAmount)` on success. -/
def transferToFinance (db : DB) (caller : UserDoc) (salesIds : List OID)
    (now : Nat) : DB × HRes (Nat × Nat) :=
  if caller.role != Role.manager then
    (db, .err 403 "Only Managers can transfer data to finance.")
  else if salesIds.isEmpty then
    (db, .err 400 "Please provide sales IDs to transfer to finance.")
  else
    let modifiedCount := db.sales.countP (fun s =>
      salesIds.contains s.sid && !s.isTransferredToFinance)
    let db1 : DB := { db with sales := db.sales.map (fun s =>
      if salesIds.contains s.sid && !s.isTransferredToFinance then
        { s with isTransferredToFinance := true, transferredToFinanceDate := some now }
      else s) }
    if modifiedCount == 0 then
      (db1, .err 404 "No eligible sales found to transfer to finance (already transferred or invalid IDs).")
    else
      let transferredSales := db1.sales.filter (fun s => salesIds.contains s.sid)
      let totalAmount := (transferredSales.map (fun s => s.amount)).sum
      let log : TransferLogDoc :=
        { transferType := "transfer_to_finance", transferredBy := caller.uid
          transferredFrom := none, transferredTo := none
          dataCount := modifiedCount, dataIds := salesIds, amount := totalAmount
          companyName := String.intercalate ", " (transferredSales.map (fun s => s.companyName))
          clientName := String.intercalate ", " (transferredSales.map (fun s => s.clientName))
          transferDate := now }
      ({ db1 with transferLogs := db1.transferLogs ++ [log] }, .ok 200 (modifiedCount, totalAmount))

/-- Primitive datastore operations issued by `deleteUser`, in issue order
(the cascade-order claims are about this trace). -/
inductive StoreStep where
  | teamDeleteOne (teamLead : OID)
  | usersUnassignExecs (teamLead : OID)
  | usersUnassignLeads (mgr : OID)
  | userDeleteById (uid : OID)
deriving DecidableEq, Repr

/-- Effect of `User.updateMany({manager: tid, role: sales_executive},
{$set: {manager: null, team: null}})` on one user document. -/
def clearExecOfLead (tid : OID) (u : UserDoc) : UserDoc :=
  if u.manager == some tid && u.role == Role.sales_executive then
    { u with manager := none, team := none }
  else u

/-- Effect of `User.updateMany({manager: tid, role: team_lead},
{$set: {manager: null}})` on one user document. -/
def clearLeadOfMgr (tid : OID) (u : UserDoc) : UserDoc :=
  if u.manager == some tid && u.role == Role.team_lead then
    { u with manager := none }
  else u

/-- controllers/userController.js `deleteUser`. Returns the final state, the
response, and the ordered trace of datastore writes that were issued.
`Team.deleteOne` removes the first matching team; `updateMany` does not run
the pre-find active filter; `findByIdAndDelete` does. -/
def deleteUser (db : DB) (caller : UserDoc) (tid : OID) :
    DB × HRes Unit × List StoreStep :=
  if tid == caller.uid && caller.role == Role.manager then
    (db, .err 403 "Managers cannot delete their own account via this route.", [])
  else
    match db.findUser tid with
    | none => (db, .err 404 "No user found with that ID", [])
    | some target =>
      if target.role == Role.manager && caller.role == Role.manager then
        (db, .err 403 "Managers cannot delete other manager accounts.", [])
      else
        let step1 : DB × List StoreStep :=
          if target.role == Role.team_lead then
            ({ db with teams := db.teams.eraseP (fun t => t.teamLead == tid),
                       users := db.users.map (clearExecOfLead tid) },
             [StoreStep.teamDeleteOne tid, StoreStep.usersUnassignExecs tid])
          else (db, [])
        let step2 : DB × List StoreStep :=
          if target.role == Role.manager then
            ({ step1.1 with users := step1.1.users.map (clearLeadOfMgr tid) },
             [StoreStep.usersUnassignLeads tid])
          else (step1.1, [])
        let db3 : DB :=
          { step2.1 with users := step2.1.users.eraseP (fun u => u.active && u.uid == tid) }
        (db3, .ok 204 (), step1.2 ++ step2.2 ++ [StoreStep.userDeleteById tid])

/-- Nested bankDetails patch of a PATCH /users/:id body. -/
structure BankPatch where
  bankName : Option String
  accountNo : Option String
  ifscCode : Option String
  upiId : Option String
deriving DecidableEq, Repr

/-- Request body of PATCH /users/:id; `none` means the key is absent. -/
structure UserBody where
  name : Option String
  email : Option String
  contactNo : Option String
  location : Option String
  refId : Option String
  status : Option String
  role : Option Role
  team : Option OID
  manager : Option OID
  bankDetails : Option BankPatch
  password : Option String
  passwordConfirm : Option String
deriving DecidableEq, Repr

/-- `filterObj(req.body, name, email, contactNo, location)` followed by the
`findByIdAndUpdate` `$set` (the self-update allowed set). -/
def selfPatch (u : UserDoc) (b : UserBody) : UserDoc :=
  { u with name := b.name.getD u.name, email := b.email.getD u.email
           contactNo := b.contactNo.getD u.contactNo
           location := b.location.getD u.location }

/-- Allowed set for a team lead updating a direct report:
name, email, contactNo, location, status. -/
def tlPatch (u : UserDoc) (b : UserBody) : UserDoc :=
  { selfPatch u b with status := b.status.getD u.status }

/-- Allowed set for a manager: name, email, contactNo, location, role, refId,
status, team, manager, bankDetails (bankDetails itself re-filtered to
bankName, accountNo, ifscCode, upiId). -/
def mgrPatch (u : UserDoc) (b : UserBody) : UserDoc :=
  let u1 := tlPatch u b
  let u2 :=
    { u1 with role := b.role.getD u.role, refId := b.refId.getD u.refId
              team := match b.team with | some t => some t | none => u.team
              manager := match b.manager with | some m => some m | none => u.manager }
  match b.bankDetails with
  | none => u2
  | some bp =>
      { u2 with bankName := bp.bankName.getD u.bankName
                accountNo := bp.accountNo.getD u.accountNo
                ifscCode := bp.ifscCode.getD u.ifscCode
                upiId := bp.upiId.getD u.upiId }

/-- `Team.findOneAndUpdate({teamLead: lead}, {$set: {_id: newId}},
{upsert: true})` of updateUser step 5: rewrite the first matching team id,
or upsert a document synthesised from the filter. -/
def teamSetIdFirst : List TeamDoc → OID → OID → Option (List TeamDoc)
  | [], _, _ => none
  | t :: ts, lead, newId =>
    if t.teamLead == lead then some ({ t with tid := newId } :: ts)
    else (teamSetIdFirst ts lead newId).map (fun r => t :: r)

/-- controllers/userController.js `updateUser`. -/
def updateUser (db : DB) (caller : UserDoc) (uid : OID) (b : UserBody) :
    DB × HRes UserDoc :=
  if optStrTruthy b.password || optStrTruthy b.passwordConfirm then
    (db, .err 400 "This route is not for password updates. Please use a dedicated route for password changes.")
  else
    -- choose the allowed-field set (or reject) per role and target
    let branch : HRes (UserDoc → UserBody → UserDoc) :=
      if uid == caller.uid then .ok 0 selfPatch
      else if caller.role == Role.manager then .ok 0 mgrPatch
      else if caller.role == Role.team_lead then
        match db.findUser uid with
        | none => .err 403 "You do not have permission to update this user."
        | some t =>
          if t.role != Role.sales_executive || t.manager != some caller.uid then
            .err 403 "You do not have permission to update this user."
          else .ok 0 tlPatch
      else .err 403 "You do not have permission to update this user."
    match branch with
    | .thrown => (db, .thrown)
    | .err c m => (db, .err c m)
    | .ok _ patch =>
      match db.findUser uid with
      | none => (db, .err 404 "No user found with that ID to update")
      | some u =>
        let updatedUser := patch u b
        let db1 : DB := { db with users := db.users.map (fun v =>
          if v.active && v.uid == uid then patch v b else v) }
        -- step 5 consistency fixups: only when a manager wrote team/manager
        let inMgrBranch := !(uid == caller.uid) && caller.role == Role.manager
        let fbTeam : Option OID := if inMgrBranch then b.team else none
        let fbManager : Option OID := if inMgrBranch then b.manager else none
        if caller.role == Role.manager && (fbTeam.isSome || fbManager.isSome) then
          let db2 : DB :=
            match fbTeam with
            | some t =>
                if updatedUser.role == Role.team_lead then
                  match teamSetIdFirst db1.teams uid t with
                  | some ts => { db1 with teams := ts }
                  | none => { db1 with teams := db1.teams ++ [{ tid := t, name := "", teamLead := uid }] }
                else db1
            | none => db1
          let db3 : DB :=
            match fbManager with
            | some m =>
                if updatedUser.role == Role.sales_executive then
                  match db2.findUser m with
                  | some newTl =>
                      if newTl.role == Role.team_lead && newTl.team.isSome then
                        { db2 with users := db2.users.map (fun v =>
                            if v.active && v.uid == uid then { v with team := newTl.team } else v) }
                      else if newTl.role != Role.team_lead then
                        { db2 with users := db2.users.map (fun v =>
                            if v.active && v.uid == uid then { v with team := none } else v) }
                      else db2
                  | none => db2
                else db2
            | none => db2
          (db3, .ok 200 updatedUser)
        else
          (db1, .ok 200 updatedUser)

/-- Request body of PATCH /prospects/:id; only keys in the allowed list
(companyName, clientName, emailId, contactNo, reminderDate, comment,
activity, isUntouched) survive `filterObj`, so the body is modelled as
exactly those optional keys. -/
structure ProspectPatch where
  companyName : Option String
  clientName : Option String
  emailId : Option String
  contactNo : Option String
  comment : Option String
  reminderDate : Option Nat
  activity : Option String
  isUntouched : Option Bool
deriving DecidableEq, Repr

/-- `$set` of the filtered prospect patch; `lastUpdate` is stamped only when
the body carries a truthy `activity`. -/
def applyProspectPatch (p : ProspectDoc) (b : ProspectPatch) (now : Nat) : ProspectDoc :=
  { p with companyName := b.companyName.getD p.companyName
           clientName := b.clientName.getD p.clientName
           emailId := b.emailId.getD p.emailId
           contactNo := b.contactNo.getD p.contactNo
           comment := b.comment.getD p.comment
           reminderDate := match b.reminderDate with | some d => some d | none => p.reminderDate
           activity := b.activity.getD p.activity
           isUntouched := b.isUntouched.getD p.isUntouched
           lastUpdate := if optStrTruthy b.activity then now else p.lastUpdate }

/-- controllers/prospectController.js `updateProspect`. -/
def updateProspect (db : DB) (caller : UserDoc) (pid : OID) (b : ProspectPatch)
    (now : Nat) : DB × HRes ProspectDoc :=
  match db.prospects.find? (fun p => p.pid == pid) with
  | none => (db, .err 404 "No prospect found with that ID")
  | some p =>
    let authorized :=
      (caller.role == Role.sales_executive && p.salesExecutive == caller.uid) ||
      (caller.role == Role.team_lead && db.users.any (fun u =>
        u.active && u.uid == p.salesExecutive && u.manager == some caller.uid)) ||
      caller.role == Role.manager
    if !authorized then
      (db, .err 403 "You do not have permission to update this prospect.")
    else
      ({ db with prospects := db.prospects.map (fun q =>
          if q.pid == pid then applyProspectPatch q b now else q) },
       .ok 200 (applyProspectPatch p b now))

/-- Request body of POST /calllogs. -/
structure CallLogBody where
  companyName : String
  clientName : String
  emailId : String
  contactNo : String
  activity : String
  comment : String
  prospectId : Option OID
deriving DecidableEq, Repr

/-- controllers/callLogController.js `createCallLog`: validation, then the
role gate (only a sales executive proceeds), then the log insert and the
linked prospect update. -/
def createCallLog (db : DB) (caller : UserDoc) (b : CallLogBody)
    (newId now : Nat) : DB × HRes CallLogDoc :=
  if !(strTruthy b.companyName) || !(strTruthy b.clientName) || !(strTruthy b.activity) then
    (db, .err 400 "Please provide company name, client name, and activity.")
  else if caller.role == Role.sales_executive then
    let log : CallLogDoc :=
      { cid := newId, companyName := b.companyName, clientName := b.clientName
        emailId := b.emailId, contactNo := b.contactNo, activity := b.activity
        comment := b.comment, salesExecutive := caller.uid
        prospect := b.prospectId, callDate := now }
    let db1 : DB := { db with callLogs := db.callLogs ++ [log] }
    let db2 : DB :=
      match b.prospectId with
      | some pidv =>
          { db1 with prospects := db1.prospects.map (fun p =>
              if p.pid == pidv then
                { p with activity := b.activity, lastUpdate := now, isUntouched := false }
              else p) }
      | none => db1
    (db2, .ok 201 log)
  else
    (db, .err 403 "Only Sales Executives can log direct calls. Managers/Team Leads manage via executive reports.")

/-- routes/callLogRoutes.js POST /: `restrictTo(MANAGER, TEAM_LEAD,
SALES_EXECUTIVE)` runs before the controller. -/
def postCallLog (db : DB) (caller : UserDoc) (b : CallLogBody)
    (newId now : Nat) : DB × HRes CallLogDoc :=
  if restrictTo [Role.manager, Role.team_lead, Role.sales_executive] caller then
    createCallLog db caller b newId now
  else
    (db, .err 403 restrictMsg)

/-! ### Concrete fixtures used by the claim theorems and witnesses -/

/-- Minimal user document builder for fixtures. -/
def sampleUser (uid : OID) (r : Role) (mgr team : Option OID) : UserDoc :=
  { uid := uid, name := "u", email := toString uid, contactNo := "", location := ""
    refId := "", status := "active", role := r, manager := mgr, team := team
    bankName := "", accountNo := "", ifscCode := "", upiId := "", active := true }

/-- Minimal prospect document builder for fixtures. -/
def sampleProspect (pid : OID) (se : OID) (tl : Option OID) (unt : Bool) : ProspectDoc :=
  { pid := pid, companyName := "c", clientName := "d", emailId := "", contactNo := ""
    comment := "", reminderDate := none, activity := "New", salesExecutive := se
    teamLead := tl, isUntouched := unt, lastUpdate := 0, createdAt := 0 }

/-- Minimal sale document builder for fixtures. -/
def sampleSale (sid : OID) (amt : Nat) (se : OID) (tl : Option OID) (fin : Bool) : SaleDoc :=
  { sid := sid, companyName := "c", clientName := "d", amount := amt
    salesExecutive := se, teamLead := tl, prospect := none
    isTransferredToFinance := fin, transferredToFinanceDate := none, saleDate := 0 }

/-- A patch body with every key absent. -/
def emptyProspectPatch : ProspectPatch :=
  { companyName := none, clientName := none, emailId := none, contactNo := none
    comment := none, reminderDate := none, activity := none, isUntouched := none }

/-- A user-update body with every key absent. -/
def emptyUserBody : UserBody :=
  { name := none, email := none, contactNo := none, location := none, refId := none
    status := none, role := none, team := none, manager := none, bankDetails := none
    password := none, passwordConfirm := none }

/-- Fixture for C1: team lead 1 (own prospect 10, own sale 20) with direct
report 2 (prospect 11, sale 21). -/
def c1tl : UserDoc := sampleUser 1 Role.team_lead none (some 100)

/-- C1 database. -/
def c1db : DB :=
  { users := [c1tl, sampleUser 2 Role.sales_executive (some 1) (some 100)]
    teams := [{ tid := 100, name := "T", teamLead := 1 }]
    prospects := [sampleProspect 10 1 (some 1) true, sampleProspect 11 2 (some 1) true]
    sales := [sampleSale 20 5 1 (some 1) false, sampleSale 21 7 2 (some 1) false]
    callLogs := [], transferLogs := [] }

/-- Fixture for C2: team lead 1 with direct report executive 2. -/
def c2exec : UserDoc := sampleUser 2 Role.sales_executive (some 1) (some 100)

/-- C2 database. -/
def c2db : DB :=
  { users := [sampleUser 1 Role.team_lead none (some 100), c2exec]
    teams := [], prospects := [], sales := [], callLogs := [], transferLogs := [] }

/-- C2 request body: the scenario of spec §8. -/
def c2body : ProspectBody :=
  { companyName := "Acme", clientName := "Bob", emailId := "", contactNo := ""
    comment := "", reminderDate := none, assignedToExecutiveEmail := "", prospectId := none }

/-- Fixture for C3: sale 1 (amount 100) already transferred to finance,
sale 2 (amount 250) not yet transferred. -/
def c3mgr : UserDoc := sampleUser 9 Role.manager none none

/-- C3 database. -/
def c3db : DB :=
  { users := [c3mgr], teams := [], prospects := []
    sales := [sampleSale 1 100 2 (some 1) true, sampleSale 2 250 2 (some 1) false]
    callLogs := [], transferLogs := [] }

/-- Fixture for C5/C6: manager 9, team lead 1 leading team 100, executive 2
reporting to the lead. -/
def c5mgr : UserDoc := sampleUser 9 Role.manager none none

/-- C5/C6 database. -/
def c5db : DB :=
  { users := [c5mgr, sampleUser 1 Role.team_lead (some 9) (some 100),
              sampleUser 2 Role.sales_executive (some 1) (some 100)]
    teams := [{ tid := 100, name := "T", teamLead := 1 }]
    prospects := [sampleProspect 40 2 (some 1) true], sales := [], callLogs := []
    transferLogs := [] }

/-- Fixture for C7: executive 2 owns untouched prospect 10 and touched
prospect 11. -/
def c7exec : UserDoc := sampleUser 2 Role.sales_executive (some 1) (some 100)

/-- C7 database. -/
def c7db : DB :=
  { users := [c7exec], teams := []
    prospects := [sampleProspect 10 2 (some 1) true, sampleProspect 11 2 (some 1) false]
    sales := [], callLogs := [], transferLogs := [] }

/-- Fixture for C8: executive 2 updating their own profile. -/
def c8user : UserDoc := sampleUser 2 Role.sales_executive (some 1) (some 100)

/-- C8 database. -/
def c8db : DB :=
  { users := [c8user], teams := [], prospects := [], sales := [], callLogs := []
    transferLogs := [] }

/-- Fixture for C10: caller team lead 1; second team lead 2; executive 3
reports to lead 2; executive 4 has a null manager (unassigned). -/
def c10tl : UserDoc := sampleUser 1 Role.team_lead none (some 100)

/-- C10 database. -/
def c10db : DB :=
  { users := [c10tl, sampleUser 2 Role.team_lead none (some 200),
              sampleUser 3 Role.sales_executive (some 2) (some 200),
              sampleUser 4 Role.sales_executive none none]
    teams := [], prospects := [sampleProspect 10 3 (some 2) true], sales := []
    callLogs := [], transferLogs := [] }

/-- Fixture for C4: manager 9, team lead 5, executives 3 and 4 reporting to
lead 5; prospect 10 owned by 3, prospect 11 owned by 7 (someone else). -/
def c4mgr : UserDoc := sampleUser 9 Role.manager none none

/-- C4 request: move prospects 10 and 11 from executive 3 to executive 4. -/
def c4req : TransferReq := { sourceUserId := 3, targetUserId := 4, dataIds := [10, 11], dataType := "prospects" }

/-- C4 database. -/
def c4db : DB :=
  { users := [c4mgr, sampleUser 5 Role.team_lead none (some 100),
              sampleUser 3 Role.sales_executive (some 5) (some 100),
              sampleUser 4 Role.sales_executive (some 5) (some 100)]
    teams := [], prospects := [sampleProspect 10 3 (some 5) true, sampleProspect 11 7 (some 5) true]
    sales := [], callLogs := [], transferLogs := [] }

/-- Fixture for C9: a team lead caller and a valid call-log body. -/
def c9tl : UserDoc := sampleUser 1 Role.team_lead none (some 100)

/-- C9 database. -/
def c9db : DB :=
  { users := [c9tl, sampleUser 3 Role.sales_executive (some 1) (some 100)]
    teams := [], prospects := [sampleProspect 10 3 (some 1) true], sales := []
    callLogs := [], transferLogs := [] }

/-- C9 request body. -/
def c9body : CallLogBody :=
  { companyName := "c", clientName := "d", emailId := "", contactNo := ""
    activity := "Talked", comment := "", prospectId := some 10 }

/-! ### Contract propositions for the larger claims -/

/-- Scope contract of the team-lead list endpoints (the amended C1): both
listings succeed and return exactly the records owned by the caller's
direct reports — never the caller's own records, never a record of another
team lead or of another team lead's reports. -/
def teamLeadScopeSpec (db : DB) (c : UserDoc) : Prop :=
  ∃ pl sl,
    getAllProspects db c { memberId := none } = .ok 200 pl ∧
    getAllSales db c { teamLeadId := none, executiveId := none } = .ok 200 sl ∧
    (∀ p ∈ pl, p ∈ db.prospects) ∧
    (∀ p ∈ pl, ∃ e, e ∈ db.users ∧ e.active = true ∧ e.role = Role.sales_executive ∧
       e.manager = some c.uid ∧ p.salesExecutive = e.uid) ∧
    (∀ p ∈ db.prospects, ∀ e, e ∈ db.users → e.active = true →
       e.role = Role.sales_executive → e.manager = some c.uid →
       p.salesExecutive = e.uid → p ∈ pl) ∧
    (∀ p ∈ pl, p.salesExecutive ≠ c.uid) ∧
    (∀ t2, t2 ≠ c.uid → ∀ e, e ∈ db.users → e.manager = some t2 →
       ∀ p ∈ pl, p.salesExecutive ≠ e.uid) ∧
    (∀ s ∈ sl, s ∈ db.sales) ∧
    (∀ s ∈ sl, ∃ e, e ∈ db.users ∧ e.active = true ∧ e.role = Role.sales_executive ∧
       e.manager = some c.uid ∧ s.salesExecutive = e.uid) ∧
    (∀ s ∈ db.sales, ∀ e, e ∈ db.users → e.active = true →
       e.role = Role.sales_executive → e.manager = some c.uid →
       s.salesExecutive = e.uid → s ∈ sl) ∧
    (∀ s ∈ sl, s.salesExecutive ≠ c.uid) ∧
    (∀ t2, t2 ≠ c.uid → ∀ e, e ∈ db.users → e.manager = some t2 →
       ∀ s ∈ sl, s.salesExecutive ≠ e.uid)

/-- Contract of the internal transfer engine (C4): frame over non-matching
entities, 404 with no TransferLog when nothing matches, and idempotence of
re-invoking an identical successful transfer. -/
def transferContract (db : DB) (c : UserDoc) (r : TransferReq) (now now2 : Nat) : Prop :=
  ((transferInternalData db c r now).1.prospects.length = db.prospects.length) ∧
  ((transferInternalData db c r now).1.sales.length = db.sales.length) ∧
  (∀ p ∈ db.prospects, (p.pid ∉ r.dataIds ∨ p.salesExecutive ≠ r.sourceUserId) →
     p ∈ (transferInternalData db c r now).1.prospects) ∧
  (∀ s ∈ db.sales, (s.sid ∉ r.dataIds ∨ s.salesExecutive ≠ r.sourceUserId) →
     s ∈ (transferInternalData db c r now).1.sales) ∧
  (∀ src tgt, transferAuth db c r = .proceed src tgt →
     (∀ p ∈ db.prospects, p.pid ∉ r.dataIds ∨ p.salesExecutive ≠ r.sourceUserId) →
     (∀ s ∈ db.sales, s.sid ∉ r.dataIds ∨ s.salesExecutive ≠ r.sourceUserId) →
     (transferInternalData db c r now).2 =
       .err 404 "No matching data found to transfer or data already transferred." ∧
     (transferInternalData db c r now).1.transferLogs = db.transferLogs) ∧
  (∀ n, (transferInternalData db c r now).2 = .ok 200 n →
     (transferInternalData (transferInternalData db c r now).1 c r now2).2 =
       .err 404 "No matching data found to transfer or data already transferred." ∧
     (transferInternalData (transferInternalData db c r now).1 c r now2).1 =
       (transferInternalData db c r now).1)

/-- Post-state contract of deleting a team lead (C6): 204; nobody reports to
the deleted lead any more; every user who reported to the lead survives
with manager and team both nulled; no other user document is lost; the
prospect/sale/call-log collections are untouched; no team led by the
deleted lead remains. -/
def tlCascadeDeleteSpec (db : DB) (c : UserDoc) (tid : OID) : Prop :=
  (deleteUser db c tid).2.1 = .ok 204 () ∧
  (∀ u ∈ (deleteUser db c tid).1.users, u.manager ≠ some tid) ∧
  (∀ u ∈ db.users, u.manager = some tid →
     { u with manager := none, team := none } ∈ (deleteUser db c tid).1.users) ∧
  (∀ u ∈ db.users, u.manager = some tid →
     ∀ v ∈ (deleteUser db c tid).1.users, v.uid = u.uid →
       v.manager = none ∧ v.team = none) ∧
  (∀ u ∈ db.users, u.uid ≠ tid →
     ∃ v, v ∈ (deleteUser db c tid).1.users ∧ v.uid = u.uid) ∧
  (deleteUser db c tid).1.prospects = db.prospects ∧
  (deleteUser db c tid).1.sales = db.sales ∧
  (deleteUser db c tid).1.callLogs = db.callLogs ∧
  (∀ t ∈ (deleteUser db c tid).1.teams, t.teamLead ≠ tid)

/-! ### Helper lemmas -/

/-- A map whose function is the identity on every element of the list is
the identity. -/
theorem map_pointwise_id {α : Type} {f : α → α} {l : List α}
    (h : ∀ a ∈ l, f a = a) : l.map f = l := by
  induction l with
  | nil => rfl
  | cons a l ih =>
      simp only [List.map_cons, h a (List.mem_cons_self a l)]
      exact congrArg (a :: ·) (ih (fun b hb => h b (List.mem_cons_of_mem a hb)))

/-- A found user has the looked-up id and is active. -/
theorem findUser_uid {db : DB} {x : OID} {u : UserDoc}
    (h : db.findUser x = some u) : u.uid = x ∧ u.active = true := by
  have hp := List.find?_some h
  simp only [Bool.and_eq_true, beq_iff_eq] at hp
  exact ⟨hp.2, hp.1⟩

/-- A found user is a member of the user collection. -/
theorem findUser_mem {db : DB} {x : OID} {u : UserDoc}
    (h : db.findUser x = some u) : u ∈ db.users :=
  List.mem_of_find?_eq_some h

/-- `transferAuth` reads only the user collection. -/
theorem transferAuth_users_eq {db db2 : DB} {c : UserDoc} {r : TransferReq}
    (h : db2.users = db.users) : transferAuth db2 c r = transferAuth db c r := by
  simp only [transferAuth, DB.findUser, h]

/-- `transferInternalData` never writes the user collection. -/
theorem transfer_users_eq (db : DB) (c : UserDoc) (r : TransferReq) (now : Nat) :
    (transferInternalData db c r now).1.users = db.users := by
  unfold transferInternalData
  cases transferAuth db c r <;> simp only
  split <;> split <;> rfl

/-- Setting the owner fields of a prospect to their current values is the
identity. -/
theorem prosUpdate_self {p : ProspectDoc} {a : OID} {b : Option OID}
    (h1 : p.salesExecutive = a) (h2 : p.teamLead = b) :
    ({ p with salesExecutive := a, teamLead := b } : ProspectDoc) = p := by
  cases p
  simp_all

/-- Setting the owner fields of a sale to their current values is the
identity. -/
theorem saleUpdate_self {s : SaleDoc} {a : OID} {b : Option OID}
    (h1 : s.salesExecutive = a) (h2 : s.teamLead = b) :
    ({ s with salesExecutive := a, teamLead := b } : SaleDoc) = s := by
  cases s
  simp_all

/-- After erasing one occurrence from a list that holds at most one
occurrence, no occurrence is left. -/
theorem eraseP_of_countP_le_one {α : Type} {p : α → Bool} {l : List α}
    (h : l.countP p ≤ 1) : ∀ a ∈ l.eraseP p, p a = false := by
  induction l with
  | nil => intro a ha; cases ha
  | cons b l ih =>
      intro a ha
      by_cases hb : p b = true
      · rw [List.eraseP_cons, hb, cond_true] at ha
        have hc : l.countP p = 0 := by
          have := List.countP_cons_of_pos p l hb
          omega
        have := (List.countP_eq_zero).1 hc a ha
        simpa using this
      · have hb' : p b = false := by simpa using hb
        rw [List.eraseP_cons, hb', cond_false] at ha
        rcases List.mem_cons.1 ha with rfl | ha2
        · exact hb'
        · have hcount : l.countP p ≤ 1 := by
            have := List.countP_cons_of_neg p l hb
            omega
          exact ih hcount a ha2

/-- Reaching step 3 presupposes that validation and the user lookups
succeeded. -/
theorem transferAuth_proceed_inv {db : DB} {c : UserDoc} {r : TransferReq}
    {src tgt : UserDoc} (h : transferAuth db c r = .proceed src tgt) :
    db.findUser r.sourceUserId = some src ∧ db.findUser r.targetUserId = some tgt ∧
    (r.dataType = "prospects" ∨ r.dataType = "sales") := by
  unfold transferAuth at h
  split at h
  · exact absurd h (by simp)
  · split at h
    · exact absurd h (by simp)
    · rename_i hdt
      have hdt2 : r.dataType = "prospects" ∨ r.dataType = "sales" := by
        by_contra hno
        push_neg at hno
        apply hdt
        simp [hno.1, hno.2]
      split at h
      · exact absurd h (by simp)
      · exact absurd h (by simp)
      · rename_i src2 tgt2 hs2 ht2
        split at h
        · exact absurd h (by simp)
        · split at h
          · split at h
            · cases h
              exact ⟨hs2, ht2, hdt2⟩
            · exact absurd h (by simp)
            · exact absurd h (by simp)
          · split at h
            · cases h
              exact ⟨hs2, ht2, hdt2⟩
            · exact absurd h (by simp)

/-- The modified-count predicate is always false after the update has been
applied: re-running the same `$set` changes nothing. -/
theorem prosChangedP_after_update (r : TransferReq) (src : UserDoc) (a : OID)
    (ntl : Option OID) (p : ProspectDoc) :
    prosChangedP r src a ntl (prosUpdateF r src a ntl p) = false := by
  unfold prosChangedP prosUpdateF
  by_cases hm : transferMatchesP r src p = true
  · rw [if_pos hm]
    simp [prosChangedP]
  · rw [if_neg hm]
    simp only [Bool.not_eq_true] at hm
    simp [hm]

/-- Same statement for sales. -/
theorem saleChangedP_after_update (r : TransferReq) (src : UserDoc) (a : OID)
    (ntl : Option OID) (s : SaleDoc) :
    saleChangedP r src a ntl (saleUpdateF r src a ntl s) = false := by
  unfold saleChangedP saleUpdateF
  by_cases hm : transferMatchesS r src s = true
  · rw [if_pos hm]
    simp [saleChangedP]
  · rw [if_neg hm]
    simp only [Bool.not_eq_true] at hm
    simp [hm]

/-- The update of step 3 is idempotent on each document. -/
theorem prosUpdateF_idem (r : TransferReq) (src : UserDoc) (a : OID)
    (ntl : Option OID) (p : ProspectDoc) :
    prosUpdateF r src a ntl (prosUpdateF r src a ntl p) = prosUpdateF r src a ntl p := by
  unfold prosUpdateF
  by_cases hm : transferMatchesP r src p = true
  · rw [if_pos hm]
    split
    · exact prosUpdate_self rfl rfl
    · rfl
  · rw [if_neg hm, if_neg hm]

/-- Same statement for sales. -/
theorem saleUpdateF_idem (r : TransferReq) (src : UserDoc) (a : OID)
    (ntl : Option OID) (s : SaleDoc) :
    saleUpdateF r src a ntl (saleUpdateF r src a ntl s) = saleUpdateF r src a ntl s := by
  unfold saleUpdateF
  by_cases hm : transferMatchesS r src s = true
  · rw [if_pos hm]
    split
    · exact saleUpdate_self rfl rfl
    · rfl
  · rw [if_neg hm, if_neg hm]

/-- A prospect that is not requested or not owned by the source is left
untouched by the step-3 update. -/
theorem prosUpdateF_noMatch {r : TransferReq} {src : UserDoc} {a : OID}
    {ntl : Option OID} {p : ProspectDoc}
    (h : p.pid ∉ r.dataIds ∨ p.salesExecutive ≠ src.uid) :
    prosUpdateF r src a ntl p = p := by
  unfold prosUpdateF
  rw [if_neg]
  unfold transferMatchesP
  rcases h with h | h <;> simp [h]

/-- Same statement for sales. -/
theorem saleUpdateF_noMatch {r : TransferReq} {src : UserDoc} {a : OID}
    {ntl : Option OID} {s : SaleDoc}
    (h : s.sid ∉ r.dataIds ∨ s.salesExecutive ≠ src.uid) :
    saleUpdateF r src a ntl s = s := by
  unfold saleUpdateF
  rw [if_neg]
  unfold transferMatchesS
  rcases h with h | h <;> simp [h]

/-- A prospect that is not requested or not owned by the source is not
counted as modified. -/
theorem prosChangedP_noMatch {r : TransferReq} {src : UserDoc} {a : OID}
    {ntl : Option OID} {p : ProspectDoc}
    (h : p.pid ∉ r.dataIds ∨ p.salesExecutive ≠ src.uid) :
    prosChangedP r src a ntl p = false := by
  unfold prosChangedP transferMatchesP
  rcases h with h | h <;> simp [h]

/-- Same statement for sales. -/
theorem saleChangedP_noMatch {r : TransferReq} {src : UserDoc} {a : OID}
    {ntl : Option OID} {s : SaleDoc}
    (h : s.sid ∉ r.dataIds ∨ s.salesExecutive ≠ src.uid) :
    saleChangedP r src a ntl s = false := by
  unfold saleChangedP transferMatchesS
  rcases h with h | h <;> simp [h]

/-- Membership in the computed direct-report id list. -/
theorem mem_teamMemberIds {db : DB} {tl j : OID} :
    j ∈ teamMemberIds db tl ↔
      ∃ u, u ∈ db.users ∧ u.active = true ∧ u.manager = some tl ∧
        u.role = Role.sales_executive ∧ u.uid = j := by
  constructor
  · intro h
    rcases List.mem_map.1 h with ⟨u, hu, huid⟩
    rcases List.mem_filter.1 hu with ⟨hmem, hpred⟩
    simp only [Bool.and_eq_true, beq_iff_eq] at hpred
    exact ⟨u, hmem, hpred.1.1, hpred.1.2, hpred.2, huid⟩
  · rintro ⟨u, hmem, hact, hman, hrole, huid⟩
    exact List.mem_map.2 ⟨u, List.mem_filter.2 ⟨hmem, by simp [hact, hman, hrole]⟩, huid⟩

/-! ### Claim theorems -/

/-- C1 (counterexample). The claim says a team-lead listing returns the
caller's own records together with the direct reports' records. In the
fixture, team lead 1 owns prospect 10 and sale 20, yet `getAllProspects`
and `getAllSales` return only the report's prospect 11 and sale 21: the
lead's own records are missing. -/
theorem claim1_counterexample :
    c1tl.role = Role.team_lead ∧
    sampleProspect 10 1 (some 1) true ∈ c1db.prospects ∧
    (sampleProspect 10 1 (some 1) true).salesExecutive = c1tl.uid ∧
    getAllProspects c1db c1tl { memberId := none } =
      .ok 200 [sampleProspect 11 2 (some 1) true] ∧
    sampleProspect 10 1 (some 1) true ∉ [sampleProspect 11 2 (some 1) true] ∧
    sampleSale 20 5 1 (some 1) false ∈ c1db.sales ∧
    (sampleSale 20 5 1 (some 1) false).salesExecutive = c1tl.uid ∧
    getAllSales c1db c1tl { teamLeadId := none, executiveId := none } =
      .ok 200 [sampleSale 21 7 2 (some 1) false] ∧
    sampleSale 20 5 1 (some 1) false ∉ [sampleSale 21 7 2 (some 1) false] := by
  decide

/-- C2 (code evaluated at the failing input). Executive 2 (manager = team
lead 1) sends the spec §8 creation scenario; the route-level
`restrictTo(MANAGER, TEAM_LEAD)` rejects it with 403 and no prospect is
created, while the controller body alone would produce exactly the
response the claim describes (201, salesExecutive = 2, teamLead = 1,
activity New, isUntouched true). -/
theorem claim2_theorem :
    c2exec.role = Role.sales_executive ∧ c2exec.manager = some 1 ∧
    postProspect c2db c2exec c2body 50 9 = (c2db, .err 403 restrictMsg) ∧
    (createProspect c2db c2exec c2body 50 9).2 =
      .ok 201 { pid := 50, companyName := "Acme", clientName := "Bob", emailId := ""
                contactNo := "", comment := "", reminderDate := none, activity := "New"
                salesExecutive := 2, teamLead := some 1, isUntouched := true
                lastUpdate := 9, createdAt := 9 } := by
  decide

/-- C3 (code evaluated at the failing input). Two sale ids are submitted,
sale 1 (amount 100) already transferred, sale 2 (amount 250) not. The
response reports modifiedCount = 1 as the claim says, but the TransferLog
amount is 350 — the sum over both fetched sales — not the untransferred
sale amount 250. -/
theorem claim3_theorem :
    (transferToFinance c3db c3mgr [1, 2] 77).2 = .ok 200 (1, 350) ∧
    ((transferToFinance c3db c3mgr [1, 2] 77).1.transferLogs.map
      (fun l => (l.dataCount, l.amount))) = [(1, 350)] ∧
    (350 : Nat) ≠ 250 := by
  decide

/-- C5 (code evaluated at the failing input). Deleting team lead 1 (who has
executive 2 as a report) issues the destructive `Team.deleteOne` as the
FIRST datastore write, before the `User.updateMany` that nulls the
executives' manager/team fields — the opposite of the required order. -/
theorem claim5_theorem :
    (deleteUser c5db c5mgr 1).2.2 =
      [StoreStep.teamDeleteOne 1, StoreStep.usersUnassignExecs 1,
       StoreStep.userDeleteById 1] ∧
    (deleteUser c5db c5mgr 1).2.1 = .ok 204 () := by
  decide

/-- C7 (counterexample). An activity update on untouched prospect 10 leaves
`isUntouched` true (the claim says the first activity update flips it to
false), and an update body carrying `isUntouched: true` on touched
prospect 11 sets the flag from false back to true (the claim says no
operation ever does). -/
theorem claim7_counterexample :
    (sampleProspect 10 2 (some 1) true).isUntouched = true ∧
    (updateProspect c7db c7exec 10
        { emptyProspectPatch with activity := some "Contacted" } 5).2 =
      .ok 200 { sampleProspect 10 2 (some 1) true with
                  activity := "Contacted", lastUpdate := 5 } ∧
    ({ sampleProspect 10 2 (some 1) true with
        activity := "Contacted", lastUpdate := 5 } : ProspectDoc).isUntouched = true ∧
    (sampleProspect 11 2 (some 1) false).isUntouched = false ∧
    (updateProspect c7db c7exec 11
        { emptyProspectPatch with isUntouched := some true } 5).2 =
      .ok 200 { sampleProspect 11 2 (some 1) false with isUntouched := true } ∧
    ({ sampleProspect 11 2 (some 1) false with isUntouched := true } : ProspectDoc).isUntouched = true := by
  decide

/-- C8 (counterexample). A self-update request whose body carries the extra
field `password` is not silently stripped: the whole request is rejected
with a 400 validation error and nothing is updated. -/
theorem claim8_counterexample :
    updateUser c8db c8user 2 { emptyUserBody with password := some "x" } =
      (c8db, .err 400 "This route is not for password updates. Please use a dedicated route for password changes.") := by
  decide

/-- C10 (counterexample). Caller is team lead 1; the target user 4 exists,
is not the caller and has a null manager, yet the request fails with the
clean 403 of the source-side check (source 3 reports to the other team
lead 2) — not with an uncontrolled 500/thrown error. -/
theorem claim10_counterexample :
    c10tl.role = Role.team_lead ∧
    c10db.findUser 4 = some (sampleUser 4 Role.sales_executive none none) ∧
    (sampleUser 4 Role.sales_executive none none).manager = none ∧
    (4 : OID) ≠ c10tl.uid ∧
    (transferInternalData c10db c10tl
        { sourceUserId := 3, targetUserId := 4, dataIds := [10], dataType := "prospects" } 7).2 =
      .err 403 "You can only transfer data from your own account or your direct reports." ∧
    (transferInternalData c10db c10tl
        { sourceUserId := 3, targetUserId := 4, dataIds := [10], dataType := "prospects" } 7).2 ≠
      HRes.thrown := by
  decide

/-- C9. Through the POST /calllogs route, a successful creation implies the
caller is a sales executive and the created log is owned by the caller;
a team-lead or manager caller never adds a call log, and whenever the
body passes the basic validation the failure is exactly the 403
authorization error. -/
theorem claim9_theorem (db : DB) (c : UserDoc) (b : CallLogBody) (newId now : Nat) :
    (∀ st log, (postCallLog db c b newId now).2 = .ok st log →
       c.role = Role.sales_executive ∧ log.salesExecutive = c.uid) ∧
    ((c.role = Role.team_lead ∨ c.role = Role.manager) →
       (postCallLog db c b newId now).1.callLogs = db.callLogs ∧
       ((strTruthy b.companyName && strTruthy b.clientName && strTruthy b.activity) = true →
          (postCallLog db c b newId now).2 =
            .err 403 "Only Sales Executives can log direct calls. Managers/Team Leads manage via executive reports.")) := by
  have hroute : restrictTo [Role.manager, Role.team_lead, Role.sales_executive] c = true := by
    cases hc : c.role <;> simp [restrictTo, hc]
  constructor
  · intro st log h
    simp only [postCallLog, hroute, if_true] at h
    unfold createCallLog at h
    split at h
    · exact absurd h (by simp)
    · split at h
      · rename_i hrole
        simp only [beq_iff_eq] at hrole
        refine ⟨hrole, ?_⟩
        simp only [HRes.ok.injEq] at h
        rw [← h.2]
      · exact absurd h (by simp)
  · intro hc
    have hnotse : (c.role == Role.sales_executive) = false := by
      rcases hc with hc | hc <;> simp [hc]
    constructor
    · simp only [postCallLog, hroute, if_true]
      unfold createCallLog
      split
      · rfl
      · simp only [hnotse, Bool.false_eq_true, if_false]
    · intro hvalid
      simp only [Bool.and_eq_true] at hvalid
      simp only [postCallLog, hroute, if_true]
      unfold createCallLog
      rw [hvalid.1.1, hvalid.1.2, hvalid.2]
      simp only [hnotse]
      rfl

/-- Witness for C9 at a concrete input: team lead 1 submits a valid body and
gets the 403 with no call log written. -/
theorem claim9_witness :
    (c9tl.role = Role.team_lead ∨ c9tl.role = Role.manager) ∧
    (postCallLog c9db c9tl c9body 30 6).1.callLogs = c9db.callLogs ∧
    (postCallLog c9db c9tl c9body 30 6).2 =
      .err 403 "Only Sales Executives can log direct calls. Managers/Team Leads manage via executive reports." := by
  have h := claim9_theorem c9db c9tl c9body 30 6
  have h2 := h.2 (Or.inl rfl)
  exact ⟨Or.inl rfl, h2.1, h2.2 (by decide)⟩

/-- C8 (amended). A self-update whose body does not carry a (truthy)
password field succeeds with exactly the four profile fields applied:
role, status, team, manager, refId and all bank fields are unchanged,
no other user document is touched, and no document is dropped. -/
theorem claim8_theorem (db : DB) (c : UserDoc) (b : UserBody) (u : UserDoc)
    (hp : optStrTruthy b.password = false)
    (hpc : optStrTruthy b.passwordConfirm = false)
    (hu : db.findUser c.uid = some u) :
    (updateUser db c c.uid b).2 = .ok 200 (selfPatch u b) ∧
    (selfPatch u b).uid = u.uid ∧
    (selfPatch u b).role = u.role ∧
    (selfPatch u b).status = u.status ∧
    (selfPatch u b).team = u.team ∧
    (selfPatch u b).manager = u.manager ∧
    (selfPatch u b).refId = u.refId ∧
    (selfPatch u b).bankName = u.bankName ∧
    (selfPatch u b).accountNo = u.accountNo ∧
    (selfPatch u b).ifscCode = u.ifscCode ∧
    (selfPatch u b).upiId = u.upiId ∧
    (updateUser db c c.uid b).1.users.length = db.users.length ∧
    (∀ v ∈ db.users, v.uid ≠ c.uid → v ∈ (updateUser db c c.uid b).1.users) := by
  have hres : updateUser db c c.uid b =
      ({ db with users := db.users.map (fun v =>
          if v.active && v.uid == c.uid then selfPatch v b else v) },
       .ok 200 (selfPatch u b)) := by
    unfold updateUser
    rw [hp, hpc]
    simp only [Bool.false_or, Bool.or_self, Bool.false_eq_true, if_false, beq_self_eq_true,
      if_true, hu, Bool.not_true, Bool.false_and, Option.isSome_none, Bool.and_false]
  refine ⟨by rw [hres], rfl, rfl, rfl, rfl, rfl, rfl, rfl, rfl, rfl, rfl, ?_, ?_⟩
  · rw [hres]
    exact List.length_map db.users _
  · intro v hv hne
    rw [hres]
    refine List.mem_map.2 ⟨v, hv, ?_⟩
    have : (v.uid == c.uid) = false := by simpa using hne
    simp [this]

/-- Witness for C8: executive 2 self-updates with a body that also carries
role and name; the response keeps the role and applies the name. -/
theorem claim8_witness :
    (updateUser c8db c8user 2
        { emptyUserBody with role := some Role.manager, name := some "N" }).2 =
      .ok 200 (selfPatch c8user
        { emptyUserBody with role := some Role.manager, name := some "N" }) ∧
    (selfPatch c8user
        { emptyUserBody with role := some Role.manager, name := some "N" }).role = c8user.role := by
  have h := claim8_theorem c8db c8user
    { emptyUserBody with role := some Role.manager, name := some "N" } c8user
    rfl rfl (by decide)
  exact ⟨h.1, h.2.2.1⟩

/-- C7 (amended). `updateProspect` writes `isUntouched` exactly as given in
the request body — an activity update without an `isUntouched` key leaves
the flag unchanged, and a body carrying `isUntouched` (including `true` on
a touched prospect) is written as-is; the flag is forced to `false` by a
CallLog creation that references the prospect. -/
theorem claim7_theorem (db : DB) (c : UserDoc) (pid : OID) (b : ProspectPatch)
    (now : Nat) (cb : CallLogBody) (newId now2 : Nat) :
    (∀ P, db.prospects.find? (fun p => p.pid == pid) = some P →
      ∀ st P2, (updateProspect db c pid b now).2 = .ok st P2 →
        P2.isUntouched = b.isUntouched.getD P.isUntouched) ∧
    (∀ pidv, cb.prospectId = some pidv → c.role = Role.sales_executive →
      (strTruthy cb.companyName && strTruthy cb.clientName && strTruthy cb.activity) = true →
      ∀ q ∈ (createCallLog db c cb newId now2).1.prospects,
        q.pid = pidv → q.isUntouched = false) := by
  constructor
  · intro P hP st P2 h
    unfold updateProspect at h
    rw [hP] at h
    split at h
    · exact absurd h (by simp)
    · rename_i p hp
      dsimp only at h
      split at h
      · exact absurd h (by simp)
      · simp only [HRes.ok.injEq] at h
        cases Option.some.inj hp
        rw [← h.2]
        rfl
  · intro pidv hpid hc hval q hq hqpid
    simp only [Bool.and_eq_true] at hval
    have hres : (createCallLog db c cb newId now2).1.prospects =
        db.prospects.map (fun p =>
          if p.pid == pidv then
            { p with activity := cb.activity, lastUpdate := now2, isUntouched := false }
          else p) := by
      unfold createCallLog
      rw [hval.1.1, hval.1.2, hval.2, hpid]
      simp [hc]
    rw [hres] at hq
    rcases List.mem_map.1 hq with ⟨p, _, rfl⟩
    by_cases hpe : (p.pid == pidv) = true
    · rw [if_pos hpe]
    · rw [if_neg hpe] at hqpid ⊢
      exact absurd hqpid (by simpa using hpe)

/-- Witness for C7 at concrete inputs: the activity-only update keeps the
flag, the isUntouched-true update writes true, and a call log on prospect
10 forces the flag to false. -/
theorem claim7_witness :
    ((updateProspect c7db c7exec 10
        { emptyProspectPatch with activity := some "Contacted" } 5).2 =
      .ok 200 { sampleProspect 10 2 (some 1) true with
                  activity := "Contacted", lastUpdate := 5 } →
      ({ sampleProspect 10 2 (some 1) true with
          activity := "Contacted", lastUpdate := 5 } : ProspectDoc).isUntouched =
        (Option.none).getD (sampleProspect 10 2 (some 1) true).isUntouched) ∧
    (∀ q ∈ (createCallLog c7db c7exec
        { companyName := "c", clientName := "d", emailId := "", contactNo := ""
          activity := "Talked", comment := "", prospectId := some 10 } 30 6).1.prospects,
      q.pid = 10 → q.isUntouched = false) := by
  have h := claim7_theorem c7db c7exec 10
    { emptyProspectPatch with activity := some "Contacted" } 5
    { companyName := "c", clientName := "d", emailId := "", contactNo := ""
      activity := "Talked", comment := "", prospectId := some 10 } 30 6
  exact ⟨h.1 (sampleProspect 10 2 (some 1) true) (by decide) 200 _,
         h.2 10 rfl rfl (by decide)⟩

/-- C10 (amended). For a team-lead caller on a validated internal-transfer
request: a source that is not the caller and has a null manager makes the
authorization check throw (uncontrolled 500); if the source check passes
and the target is not the caller with a null manager, the check throws on
the target; but when the source-side check fails cleanly (source not the
caller with a non-null manager that is not the caller), the request ends
in the clean 403 — even if the target has a null manager. -/
theorem claim10_theorem (db : DB) (c : UserDoc) (r : TransferReq) (now : Nat)
    (src tgt : UserDoc)
    (hc : c.role = Role.team_lead)
    (hids : r.dataIds.isEmpty = false)
    (hdt : r.dataType = "prospects" ∨ r.dataType = "sales")
    (hs : db.findUser r.sourceUserId = some src)
    (ht : db.findUser r.targetUserId = some tgt)
    (hsr : src.role = Role.sales_executive ∨ src.role = Role.team_lead)
    (htr : tgt.role = Role.sales_executive ∨ tgt.role = Role.team_lead) :
    (src.uid ≠ c.uid → src.manager = none →
       (transferInternalData db c r now).2 = HRes.thrown) ∧
    ((src.uid = c.uid ∨ src.manager = some c.uid) → tgt.uid ≠ c.uid → tgt.manager = none →
       (transferInternalData db c r now).2 = HRes.thrown) ∧
    (∀ m, src.uid ≠ c.uid → src.manager = some m → m ≠ c.uid →
       (transferInternalData db c r now).2 =
         .err 403 "You can only transfer data from your own account or your direct reports.") := by
  have hdt2 : (r.dataType == "prospects" || r.dataType == "sales") = true := by
    rcases hdt with h | h <;> simp [h]
  have hroles : (List.contains [Role.sales_executive, Role.team_lead] src.role &&
                 List.contains [Role.sales_executive, Role.team_lead] tgt.role) = true := by
    rcases hsr with h | h <;> rcases htr with h2 | h2 <;> rw [h, h2] <;> decide
  have hauth : transferAuth db c r =
      (match tlTransferAuth c src tgt with
       | TGate.allow => TAuth.proceed src tgt
       | TGate.deny m => TAuth.fail 403 m
       | TGate.thrown => TAuth.thrown) := by
    unfold transferAuth
    rw [hids, hs, ht]
    simp [hdt2, hroles, hc]
    intro hbad
    rcases hbad with ⟨h1, h2⟩ | ⟨h1, h2⟩
    · rcases hsr with h | h
      · exact absurd h h1
      · exact absurd h h2
    · rcases htr with h | h
      · exact absurd h h1
      · exact absurd h h2
  refine ⟨?_, ?_, ?_⟩
  · intro hne hm
    have h1 : (src.uid != c.uid) = true := by
      simp only [bne_iff_ne, ne_eq]
      exact hne
    have hgate : tlTransferAuth c src tgt = TGate.thrown := by
      unfold tlTransferAuth tlGateSource
      rw [h1, hm]
      rfl
    unfold transferInternalData
    rw [hauth, hgate]
  · intro hsrc hne hm
    have hgate1 : tlGateSource c src = TGate.allow := by
      unfold tlGateSource
      rcases hsrc with h | h
      · rw [show (src.uid != c.uid) = false by simp [h]]
        rfl
      · by_cases h2 : (src.uid != c.uid) = true
        · rw [h2, h]
          simp
        · rw [show (src.uid != c.uid) = false by simpa using h2]
          rfl
    have h1 : (tgt.uid != c.uid) = true := by
      simp only [bne_iff_ne, ne_eq]
      exact hne
    have hgate : tlTransferAuth c src tgt = TGate.thrown := by
      unfold tlTransferAuth
      rw [hgate1]
      unfold tlGateTarget
      rw [h1, hm]
      rfl
    unfold transferInternalData
    rw [hauth, hgate]
  · intro m hne hm hmne
    have h1 : (src.uid != c.uid) = true := by
      simp only [bne_iff_ne, ne_eq]
      exact hne
    have h2 : (m != c.uid) = true := by
      simp only [bne_iff_ne, ne_eq]
      exact hmne
    have hgate : tlTransferAuth c src tgt =
        TGate.deny "You can only transfer data from your own account or your direct reports." := by
      unfold tlTransferAuth tlGateSource
      rw [h1, hm]
      simp [h2, TGate.seq]
    unfold transferInternalData
    rw [hauth, hgate]

/-- Witness for C10: team lead 1 transfers from unassigned executive 4 (null
manager) — the request ends in a thrown TypeError (HTTP 500). -/
theorem claim10_witness :
    (transferInternalData c10db c10tl
        { sourceUserId := 4, targetUserId := 1, dataIds := [10], dataType := "prospects" } 7).2 =
      HRes.thrown := by
  have h := claim10_theorem c10db c10tl
    { sourceUserId := 4, targetUserId := 1, dataIds := [10], dataType := "prospects" } 7
    (sampleUser 4 Role.sales_executive none none) c10tl rfl rfl (Or.inl rfl)
    (by decide) (by decide) (Or.inl rfl) (Or.inr rfl)
  exact h.1 (by decide) rfl

/-- C1 (amended). For a team-lead caller, the base prospect and sales
listings return exactly the records owned by the caller's direct reports:
every returned record is owned by some active direct report with role
sales_executive, every record of such a report is returned, the caller's
own records are never returned, and no record of another team lead or of
another team lead's reports is ever returned. -/
theorem claim1_theorem (db : DB) (c : UserDoc)
    (hc : c.role = Role.team_lead)
    (hnodup : (db.users.map (fun u => u.uid)).Nodup)
    (hself : ∀ u ∈ db.users, u.uid = c.uid → u.manager ≠ some c.uid) :
    teamLeadScopeSpec db c := by
  have hscope : ∀ j : OID, (teamMemberIds db c.uid).contains j = true ↔
      ∃ u, u ∈ db.users ∧ u.active = true ∧ u.manager = some c.uid ∧
        u.role = Role.sales_executive ∧ u.uid = j := by
    intro j
    constructor
    · intro h
      exact mem_teamMemberIds.1 (by simpa using h)
    · intro h
      have := mem_teamMemberIds.2 h
      simpa using this
  refine ⟨db.prospects.filter (fun p => (teamMemberIds db c.uid).contains p.salesExecutive),
          db.sales.filter (fun s => (teamMemberIds db c.uid).contains s.salesExecutive),
          ?_, ?_, ?_, ?_, ?_, ?_, ?_, ?_, ?_, ?_, ?_, ?_⟩
  · unfold getAllProspects
    simp [hc, SEFilter.allows]
  · unfold getAllSales
    simp [hc, SEFilter.allows]
  · intro p hp
    exact (List.mem_filter.1 hp).1
  · intro p hp
    have h2 := (List.mem_filter.1 hp).2
    rcases (hscope p.salesExecutive).1 h2 with ⟨u, hu, ha, hm, hr, huid⟩
    exact ⟨u, hu, ha, hr, hm, huid.symm⟩
  · intro p hp e he ha hr hm hse
    refine List.mem_filter.2 ⟨hp, ?_⟩
    exact (hscope p.salesExecutive).2 ⟨e, he, ha, hm, hr, hse.symm⟩
  · intro p hp hpse
    have h2 := (List.mem_filter.1 hp).2
    rcases (hscope p.salesExecutive).1 h2 with ⟨u, hu, ha, hm, _, huid⟩
    exact hself u hu (huid.trans hpse) hm
  · intro t2 ht2 e he hem p hp hpe
    have h2 := (List.mem_filter.1 hp).2
    rcases (hscope p.salesExecutive).1 h2 with ⟨u, hu, ha, hm, _, huid⟩
    have : u = e := List.inj_on_of_nodup_map hnodup hu he (by rw [huid, hpe])
    rw [this] at hm
    rw [hem] at hm
    exact ht2 (Option.some.inj hm)
  · intro s hs
    exact (List.mem_filter.1 hs).1
  · intro s hs
    have h2 := (List.mem_filter.1 hs).2
    rcases (hscope s.salesExecutive).1 h2 with ⟨u, hu, ha, hm, hr, huid⟩
    exact ⟨u, hu, ha, hr, hm, huid.symm⟩
  · intro s hs e he ha hr hm hse
    refine List.mem_filter.2 ⟨hs, ?_⟩
    exact (hscope s.salesExecutive).2 ⟨e, he, ha, hm, hr, hse.symm⟩
  · intro s hs hsse
    have h2 := (List.mem_filter.1 hs).2
    rcases (hscope s.salesExecutive).1 h2 with ⟨u, hu, ha, hm, _, huid⟩
    exact hself u hu (huid.trans hsse) hm
  · intro t2 ht2 e he hem s hs hse
    have h2 := (List.mem_filter.1 hs).2
    rcases (hscope s.salesExecutive).1 h2 with ⟨u, hu, ha, hm, _, huid⟩
    have : u = e := List.inj_on_of_nodup_map hnodup hu he (by rw [huid, hse])
    rw [this] at hm
    rw [hem] at hm
    exact ht2 (Option.some.inj hm)

/-- Witness for C1 at the concrete fixture: team lead 1 with direct report 2
satisfies the amended scope contract. -/
theorem claim1_witness : teamLeadScopeSpec c1db c1tl :=
  claim1_theorem c1db c1tl rfl (by decide) (by decide)

/-- C6. After a manager deletes a team lead (well-formed state: unique user
ids, at most one team per lead, and everyone reporting to the lead is a
sales executive as the data-model invariant requires), the response is
204, nobody reports to the lead, every former report survives with manager
and team nulled together, no other user or record is deleted, and the
lead's team is gone. -/
theorem claim6_theorem (db : DB) (c : UserDoc) (tid : OID) (target : UserDoc)
    (hfind : db.findUser tid = some target)
    (hrole : target.role = Role.team_lead)
    (hcr : c.role = Role.manager)
    (hne : tid ≠ c.uid)
    (hmgr : ∀ u ∈ db.users, u.manager = some tid →
       u.role = Role.sales_executive ∧ u.uid ≠ tid)
    (hnodup : (db.users.map (fun u => u.uid)).Nodup)
    (hteams : db.teams.countP (fun t => t.teamLead == tid) ≤ 1) :
    tlCascadeDeleteSpec db c tid := by
  have huid_clear : ∀ w, (clearExecOfLead tid w).uid = w.uid := by
    intro w
    unfold clearExecOfLead
    split <;> rfl
  have hres : deleteUser db c tid =
      ({ db with teams := db.teams.eraseP (fun t => t.teamLead == tid),
                 users := (db.users.map (clearExecOfLead tid)).eraseP
                   (fun u => u.active && u.uid == tid) },
       .ok 204 (), [StoreStep.teamDeleteOne tid, StoreStep.usersUnassignExecs tid,
                    StoreStep.userDeleteById tid]) := by
    unfold deleteUser
    rw [show (tid == c.uid) = false from by simpa using hne, hfind]
    simp [hrole]
  unfold tlCascadeDeleteSpec
  rw [hres]
  refine ⟨rfl, ?_, ?_, ?_, ?_, rfl, rfl, rfl, ?_⟩
  · intro u hu hum
    have hu2 : u ∈ db.users.map (clearExecOfLead tid) :=
      (List.eraseP_sublist _).subset hu
    rcases List.mem_map.1 hu2 with ⟨w, hw, rfl⟩
    by_cases hwm : (w.manager == some tid && w.role == Role.sales_executive) = true
    · unfold clearExecOfLead at hum
      rw [if_pos hwm] at hum
      exact absurd hum (by simp)
    · unfold clearExecOfLead at hum
      rw [if_neg hwm] at hum
      have hh := hmgr w hw hum
      exact hwm (by simp [hum, hh.1])
  · intro u hu hum
    have h1 := hmgr u hu hum
    have hc1 : clearExecOfLead tid u = { u with manager := none, team := none } := by
      unfold clearExecOfLead
      rw [if_pos (by simp [hum, h1.1])]
    have hmem : ({ u with manager := none, team := none } : UserDoc) ∈
        db.users.map (clearExecOfLead tid) :=
      hc1 ▸ List.mem_map_of_mem (clearExecOfLead tid) hu
    exact (List.mem_eraseP_of_neg (by simp [h1.2])).2 hmem
  · intro u hu hum v hv hveq
    have hv2 : v ∈ db.users.map (clearExecOfLead tid) :=
      (List.eraseP_sublist _).subset hv
    rcases List.mem_map.1 hv2 with ⟨w, hw, rfl⟩
    have hwu : w.uid = u.uid := by
      rw [← huid_clear w]
      exact hveq
    have hwueq : w = u := List.inj_on_of_nodup_map hnodup hw hu hwu
    subst hwueq
    have h1 := hmgr w hw hum
    unfold clearExecOfLead
    rw [if_pos (by simp [hum, h1.1])]
    exact ⟨rfl, rfl⟩
  · intro u hu hune
    refine ⟨clearExecOfLead tid u, ?_, huid_clear u⟩
    refine (List.mem_eraseP_of_neg ?_).2 (List.mem_map_of_mem (clearExecOfLead tid) hu)
    simp [huid_clear u, hune]
  · intro t ht
    have := eraseP_of_countP_le_one hteams t ht
    simpa using this

/-- Witness for C6: deleting team lead 1 from the concrete fixture meets the
cascade contract. -/
theorem claim6_witness : tlCascadeDeleteSpec c5db c5mgr 1 :=
  claim6_theorem c5db c5mgr 1 (sampleUser 1 Role.team_lead (some 9) (some 100))
    (by decide) rfl rfl (by decide) (by decide) (by decide) (by decide)

/-- C4. The internal transfer engine touches only the requested entities
currently owned by the source (everything else is carried over unchanged
and nothing is dropped), fails with the 404 NotFoundError and writes no
TransferLog when no entity matches, and an immediate identical
re-invocation of a successful transfer modifies nothing and returns the
same 404. -/
theorem claim4_theorem (db : DB) (c : UserDoc) (r : TransferReq) (now now2 : Nat) :
    transferContract db c r now now2 := by
  unfold transferContract
  cases hA : transferAuth db c r with
  | fail code msg =>
      have hT : transferInternalData db c r now = (db, .err code msg) := by
        unfold transferInternalData
        rw [hA]
      rw [hT]
      exact ⟨rfl, rfl, fun p hp _ => hp, fun s hs _ => hs,
        fun src tgt hpr _ _ => absurd hpr (by simp),
        fun n hok => absurd hok (by simp)⟩
  | thrown =>
      have hT : transferInternalData db c r now = (db, .thrown) := by
        unfold transferInternalData
        rw [hA]
      rw [hT]
      exact ⟨rfl, rfl, fun p hp _ => hp, fun s hs _ => hs,
        fun src tgt hpr _ _ => absurd hpr (by simp),
        fun n hok => absurd hok (by simp)⟩
  | proceed src tgt =>
      obtain ⟨hs, ht, hdt⟩ := transferAuth_proceed_inv hA
      have hsuid : src.uid = r.sourceUserId := (findUser_uid hs).1
      have hA2base : transferAuth (transferInternalData db c r now).1 c r =
          TAuth.proceed src tgt := by
        rw [transferAuth_users_eq (transfer_users_eq db c r now)]
        exact hA
      rcases hdt with hdtp | hdts
      · -- dataType = "prospects"
        have hbeq : (r.dataType == "prospects") = true := by simp [hdtp]
        by_cases hcnt :
            (db.prospects.countP (prosChangedP r src tgt.uid (transferNewTL tgt)) == 0) = true
        · have hT : transferInternalData db c r now =
              ({ db with prospects :=
                  db.prospects.map (prosUpdateF r src tgt.uid (transferNewTL tgt)) },
               .err 404 "No matching data found to transfer or data already transferred.") := by
            unfold transferInternalData
            rw [hA]
            dsimp only
            rw [if_pos hbeq, if_pos hcnt]
          rw [hT]
          refine ⟨List.length_map db.prospects _, rfl, ?_, fun s hsm _ => hsm, ?_, ?_⟩
          · intro p hp hfr
            refine List.mem_map.2 ⟨p, hp, ?_⟩
            exact prosUpdateF_noMatch (hfr.imp id (fun hx => by rw [hsuid]; exact hx))
          · intro src2 tgt2 hpr _ _
            cases hpr
            exact ⟨rfl, rfl⟩
          · intro n hok
            exact absurd hok (by simp)
        · have hTp : (transferInternalData db c r now).1.prospects =
              db.prospects.map (prosUpdateF r src tgt.uid (transferNewTL tgt)) := by
            unfold transferInternalData
            rw [hA]
            dsimp only
            rw [if_pos hbeq, if_neg hcnt]
          have hTs : (transferInternalData db c r now).1.sales = db.sales := by
            unfold transferInternalData
            rw [hA]
            dsimp only
            rw [if_pos hbeq, if_neg hcnt]
          have hTok : (transferInternalData db c r now).2 =
              .ok 200 (db.prospects.countP (prosChangedP r src tgt.uid (transferNewTL tgt))) := by
            unfold transferInternalData
            rw [hA]
            dsimp only
            rw [if_pos hbeq, if_neg hcnt]
          refine ⟨?_, ?_, ?_, ?_, ?_, ?_⟩
          · rw [hTp]
            exact List.length_map db.prospects _
          · rw [hTs]
          · intro p hp hfr
            rw [hTp]
            refine List.mem_map.2 ⟨p, hp, ?_⟩
            exact prosUpdateF_noMatch (hfr.imp id (fun hx => by rw [hsuid]; exact hx))
          · intro s hsm _
            rw [hTs]
            exact hsm
          · intro src2 tgt2 hpr hnp _
            cases hpr
            exfalso
            apply hcnt
            have hzero : db.prospects.countP
                (prosChangedP r src tgt.uid (transferNewTL tgt)) = 0 :=
              List.countP_eq_zero.2 (fun p hp => by
                have := @prosChangedP_noMatch r src tgt.uid (transferNewTL tgt) p
                  ((hnp p hp).imp id (fun hx => by rw [hsuid]; exact hx))
                simp [this])
            simp [hzero]
          · intro n hok
            have hcnt2 : ((transferInternalData db c r now).1.prospects.countP
                (prosChangedP r src tgt.uid (transferNewTL tgt)) == 0) = true := by
              rw [hTp, List.countP_map]
              have hz : db.prospects.countP
                  ((prosChangedP r src tgt.uid (transferNewTL tgt)) ∘
                    (prosUpdateF r src tgt.uid (transferNewTL tgt))) = 0 :=
                List.countP_eq_zero.2 (fun p hp => by
                  simp [Function.comp, prosChangedP_after_update])
              rw [hz]
              rfl
            have hmapf : (transferInternalData db c r now).1.prospects.map
                (prosUpdateF r src tgt.uid (transferNewTL tgt)) =
                (transferInternalData db c r now).1.prospects := by
              rw [hTp, List.map_map]
              exact List.map_congr_left
                (fun p _ => prosUpdateF_idem r src tgt.uid (transferNewTL tgt) p)
            revert hA2base hcnt2 hmapf
            generalize (transferInternalData db c r now).1 = DB1
            intro hA2base hcnt2 hmapf
            have hT2 : transferInternalData DB1 c r now2 =
                ({ DB1 with prospects :=
                    DB1.prospects.map (prosUpdateF r src tgt.uid (transferNewTL tgt)) },
                 .err 404 "No matching data found to transfer or data already transferred.") := by
              unfold transferInternalData
              rw [hA2base]
              dsimp only
              rw [if_pos hbeq, if_pos hcnt2]
            rw [hT2]
            refine ⟨rfl, ?_⟩
            rw [hmapf]
      · -- dataType = "sales"
        have hbeq : (r.dataType == "prospects") = false := by simp [hdts]
        by_cases hcnt :
            (db.sales.countP (saleChangedP r src tgt.uid (transferNewTL tgt)) == 0) = true
        · have hT : transferInternalData db c r now =
              ({ db with sales :=
                  db.sales.map (saleUpdateF r src tgt.uid (transferNewTL tgt)) },
               .err 404 "No matching data found to transfer or data already transferred.") := by
            unfold transferInternalData
            rw [hA]
            dsimp only
            rw [if_neg (by simp [hbeq]), if_pos hcnt]
          rw [hT]
          refine ⟨rfl, List.length_map db.sales _, fun p hp _ => hp, ?_, ?_, ?_⟩
          · intro s hsm hfr
            refine List.mem_map.2 ⟨s, hsm, ?_⟩
            exact saleUpdateF_noMatch (hfr.imp id (fun hx => by rw [hsuid]; exact hx))
          · intro src2 tgt2 hpr _ _
            cases hpr
            exact ⟨rfl, rfl⟩
          · intro n hok
            exact absurd hok (by simp)
        · have hTp : (transferInternalData db c r now).1.prospects = db.prospects := by
            unfold transferInternalData
            rw [hA]
            dsimp only
            rw [if_neg (by simp [hbeq]), if_neg hcnt]
          have hTs : (transferInternalData db c r now).1.sales =
              db.sales.map (saleUpdateF r src tgt.uid (transferNewTL tgt)) := by
            unfold transferInternalData
            rw [hA]
            dsimp only
            rw [if_neg (by simp [hbeq]), if_neg hcnt]
          refine ⟨?_, ?_, ?_, ?_, ?_, ?_⟩
          · rw [hTp]
          · rw [hTs]
            exact List.length_map db.sales _
          · intro p hp _
            rw [hTp]
            exact hp
          · intro s hsm hfr
            rw [hTs]
            refine List.mem_map.2 ⟨s, hsm, ?_⟩
            exact saleUpdateF_noMatch (hfr.imp id (fun hx => by rw [hsuid]; exact hx))
          · intro src2 tgt2 hpr _ hns
            cases hpr
            exfalso
            apply hcnt
            have hzero : db.sales.countP
                (saleChangedP r src tgt.uid (transferNewTL tgt)) = 0 :=
              List.countP_eq_zero.2 (fun s hsm => by
                have := @saleChangedP_noMatch r src tgt.uid (transferNewTL tgt) s
                  ((hns s hsm).imp id (fun hx => by rw [hsuid]; exact hx))
                simp [this])
            simp [hzero]
          · intro n hok
            have hcnt2 : ((transferInternalData db c r now).1.sales.countP
                (saleChangedP r src tgt.uid (transferNewTL tgt)) == 0) = true := by
              rw [hTs, List.countP_map]
              have hz : db.sales.countP
                  ((saleChangedP r src tgt.uid (transferNewTL tgt)) ∘
                    (saleUpdateF r src tgt.uid (transferNewTL tgt))) = 0 :=
                List.countP_eq_zero.2 (fun s hsm => by
                  simp [Function.comp, saleChangedP_after_update])
              rw [hz]
              rfl
            have hmapf : (transferInternalData db c r now).1.sales.map
                (saleUpdateF r src tgt.uid (transferNewTL tgt)) =
                (transferInternalData db c r now).1.sales := by
              rw [hTs, List.map_map]
              exact List.map_congr_left
                (fun s _ => saleUpdateF_idem r src tgt.uid (transferNewTL tgt) s)
            revert hA2base hcnt2 hmapf
            generalize (transferInternalData db c r now).1 = DB1
            intro hA2base hcnt2 hmapf
            have hT2 : transferInternalData DB1 c r now2 =
                ({ DB1 with sales :=
                    DB1.sales.map (saleUpdateF r src tgt.uid (transferNewTL tgt)) },
                 .err 404 "No matching data found to transfer or data already transferred.") := by
              unfold transferInternalData
              rw [hA2base]
              dsimp only
              rw [if_neg (by simp [hbeq]), if_pos hcnt2]
            rw [hT2]
            refine ⟨rfl, ?_⟩
            rw [hmapf]

/-- Witness for C4: the manager moves prospects 10 and 11 from executive 3
to executive 4 (only 10 is owned by 3); the first call succeeds and the
identical second call returns the 404 and leaves the state unchanged. -/
theorem claim4_witness :
    (transferInternalData c4db c4mgr c4req 7).2 = .ok 200 1 ∧
    (transferInternalData (transferInternalData c4db c4mgr c4req 7).1 c4mgr c4req 8).2 =
      .err 404 "No matching data found to transfer or data already transferred." ∧
    (transferInternalData (transferInternalData c4db c4mgr c4req 7).1 c4mgr c4req 8).1 =
      (transferInternalData c4db c4mgr c4req 7).1 := by
  have h := claim4_theorem c4db c4mgr c4req 7 8
  have h2 := h.2.2.2.2.2 1 (by decide)
  exact ⟨by decide, h2.1, h2.2⟩

end CRM
